import Mathlib

/-!
Verification of the bounded-resource concurrent crawl engine of hyperplex
(src/scrape.py, src/scrape2.py, src/db.py) against its specification.

Each definition below is a shallow embedding of a named piece of the Python
source; the doc comment of each definition cites the file and lines it embeds.
-/

namespace Hyperplex

/-! ## Resource Pool: interleaved counter model (scrape.py lines 87-127)

`WebDriverPool` holds a `Queue(maxsize=N)` of drivers and a `Semaphore(N)`.
`get_driver` first acquires the semaphore, then pops the queue
(scrape.py lines 109-117); `release_driver` first puts the driver back into
the queue, then releases the semaphore (lines 119-127).  To speak about
"at all times" we model the two halves of each operation as separate
interleaved steps, counting the tasks in each phase. -/

/-- State of the pool plus its client tasks, by counters:
`sem` is the semaphore counter, `q` the number of drivers sitting in the
queue, `tAcq` the tasks that passed `semaphore.acquire()` but have not yet
popped the queue, `tHold` the tasks currently holding a driver, `tRel` the
tasks that have put their driver back but not yet released the semaphore. -/
structure PoolCtr where
  sem : Nat
  q : Nat
  tAcq : Nat
  tHold : Nat
  tRel : Nat
  deriving DecidableEq, Repr

/-- Interleaved steps of `get_driver` / `release_driver` for a pool of
capacity `N` (scrape.py lines 109-127).  `semAcq` is the semaphore acquire
inside `get_driver` (blocks unless the counter is positive); `queueGet` is
the `available_drivers.get()` (blocks unless a driver is queued);
`queuePut` is the `available_drivers.put(driver)` inside `release_driver`
(blocks when the queue holds `N` drivers, its `maxsize`); `semRel` is the
final `semaphore.release()`. -/
inductive PoolStep (N : Nat) : PoolCtr → PoolCtr → Prop where
  | semAcq (s : PoolCtr) (h : 0 < s.sem) :
      PoolStep N s ⟨s.sem - 1, s.q, s.tAcq + 1, s.tHold, s.tRel⟩
  | queueGet (s : PoolCtr) (hq : 0 < s.q) (ht : 0 < s.tAcq) :
      PoolStep N s ⟨s.sem, s.q - 1, s.tAcq - 1, s.tHold + 1, s.tRel⟩
  | queuePut (s : PoolCtr) (ht : 0 < s.tHold) (hq : s.q < N) :
      PoolStep N s ⟨s.sem, s.q + 1, s.tAcq, s.tHold - 1, s.tRel + 1⟩
  | semRel (s : PoolCtr) (ht : 0 < s.tRel) :
      PoolStep N s ⟨s.sem + 1, s.q, s.tAcq, s.tHold, s.tRel - 1⟩

/-- Pool state right after `WebDriverPool.__init__` (scrape.py lines 88-98):
the semaphore counter is `N` and all `N` pre-created drivers are queued. -/
def initCtr (N : Nat) : PoolCtr := ⟨N, N, 0, 0, 0⟩

/-- States reachable by any interleaving of `get_driver`/`release_driver`
steps from the freshly constructed pool. -/
def PoolReachable (N : Nat) (s : PoolCtr) : Prop :=
  Relation.ReflTransGen (PoolStep N) (initCtr N) s

/-- The inductive invariant of the pool: the semaphore counter plus every
task in flight accounts for the capacity, and queued plus held drivers
account for all `N` driver instances. -/
def PoolInv (N : Nat) (s : PoolCtr) : Prop :=
  s.sem + s.tAcq + s.tHold + s.tRel = N ∧ s.q + s.tHold = N

theorem poolInv_init (N : Nat) : PoolInv N (initCtr N) := by
  constructor <;> simp [initCtr]

theorem poolInv_step {N : Nat} {s t : PoolCtr} (hs : PoolInv N s)
    (h : PoolStep N s t) : PoolInv N t := by
  obtain ⟨h1, h2⟩ := hs
  cases h with
  | semAcq h => exact ⟨by dsimp; omega, by dsimp; omega⟩
  | queueGet hq ht => exact ⟨by dsimp; omega, by dsimp; omega⟩
  | queuePut ht hq => exact ⟨by dsimp; omega, by dsimp; omega⟩
  | semRel ht => exact ⟨by dsimp; omega, by dsimp; omega⟩

theorem poolInv_reachable {N : Nat} {s : PoolCtr} (h : PoolReachable N s) :
    PoolInv N s := by
  induction h with
  | refl => exact poolInv_init N
  | tail _ hstep ih => exact poolInv_step ih hstep

/-- Claim C1: in every execution (every reachable interleaving of
`get_driver`/`release_driver` steps of a pool of capacity `N`), the number
of checked-out handles never exceeds `N`: the tasks currently holding a
driver, and even all tasks past the semaphore acquire of `get_driver` that
have not yet returned their driver, number at most `N`. -/
theorem pool_concurrency_bound {N : Nat} {s : PoolCtr}
    (h : PoolReachable N s) : s.tHold ≤ N ∧ s.tAcq + s.tHold ≤ N := by
  have hinv := poolInv_reachable h
  obtain ⟨h1, _⟩ := hinv
  omega

/-- Witness for C1: the state after one task fully acquired a driver from a
pool of capacity 2 is reachable, and satisfies the bound. -/
theorem pool_concurrency_bound_witness :
    (⟨1, 1, 0, 1, 0⟩ : PoolCtr).tHold ≤ 2 ∧
      (⟨1, 1, 0, 1, 0⟩ : PoolCtr).tAcq + (⟨1, 1, 0, 1, 0⟩ : PoolCtr).tHold ≤ 2 :=
  pool_concurrency_bound
    (Relation.ReflTransGen.tail
      (Relation.ReflTransGen.single (PoolStep.semAcq (initCtr 2) (by decide)))
      (PoolStep.queueGet ⟨1, 2, 1, 0, 0⟩ (by decide) (by decide)))

/-! ## Resource Pool: executable model (scrape.py lines 87-164)

A deterministic executable embedding of `WebDriverPool` together with the
`stop_event` flag set by `SeleniumScraper.signal_handler` (scrape.py lines
160-164).  Drivers are identified by the numbers `0..N-1` created at
construction. -/

/-- Executable pool state: `sem` is the semaphore counter, `queue` the FIFO
of driver ids in `available_drivers`, `quitted` the drivers destroyed by
`quit_all_drivers`, `stopFlag` the scraper's `stop_event`. -/
structure PoolSt where
  sem : Nat
  queue : List Nat
  quitted : List Nat
  stopFlag : Bool
  deriving DecidableEq, Repr

/-- Possible outcomes of a `get_driver` call in a state where no other
thread intervenes: a driver is returned, or the call blocks on the
semaphore, or it blocks on the empty driver queue.  `raisedPoolClosed`
is the error outcome named by the spec; the body of `get_driver`
(scrape.py lines 109-117) never produces it. -/
inductive GetOutcome where
  | got (d : Nat)
  | blockedOnSem
  | blockedOnQueue
  | raisedPoolClosed
  deriving DecidableEq, Repr

/-- `WebDriverPool.__init__(max_size := n)` (scrape.py lines 88-98). -/
def poolInit (n : Nat) : PoolSt := ⟨n, List.range n, [], false⟩

/-- `WebDriverPool.get_driver` (scrape.py lines 109-117): acquire the
semaphore, then pop `available_drivers`; neither step consults `stopFlag`
and no code path raises. -/
def get_driver (s : PoolSt) : GetOutcome × PoolSt :=
  if s.sem = 0 then (GetOutcome.blockedOnSem, s)
  else
    match s.queue with
    | [] => (GetOutcome.blockedOnQueue, { s with sem := s.sem - 1 })
    | d :: rest => (GetOutcome.got d, { s with sem := s.sem - 1, queue := rest })

/-- `WebDriverPool.release_driver` (scrape.py lines 119-127): put the
driver back, then release the semaphore. -/
def release_driver (s : PoolSt) (d : Nat) : PoolSt :=
  { s with queue := s.queue ++ [d], sem := s.sem + 1 }

/-- `WebDriverPool.quit_all_drivers` (scrape.py lines 129-135): drain the
queue, quitting each drained driver; the semaphore and any checked-out
driver are untouched, and no closed flag is recorded anywhere. -/
def quit_all_drivers (s : PoolSt) : PoolSt :=
  { s with queue := [], quitted := s.quitted ++ s.queue }

/-- `SeleniumScraper.signal_handler` (scrape.py lines 160-164): set
`stop_event`, then quit all pooled drivers. -/
def signal_handler (s : PoolSt) : PoolSt :=
  quit_all_drivers { s with stopFlag := true }

/-- Counterexample to claim C7: on a freshly constructed pool of capacity 1
that has been shut down by `quit_all_drivers`, the next `get_driver` does
not fail with `PoolClosed` (no such error exists in the code); its
semaphore acquire succeeds and it blocks forever on the empty queue. -/
theorem get_after_shutdown_not_poolClosed :
    (get_driver (quit_all_drivers (poolInit 1))).fst = GetOutcome.blockedOnQueue ∧
      (get_driver (quit_all_drivers (poolInit 1))).fst ≠ GetOutcome.raisedPoolClosed := by
  constructor <;> decide

/-- Amended claim C7: `get_driver` after `quit_all_drivers` on an idle pool
never fails with any error; for every positive capacity the semaphore
acquire succeeds and the call blocks on the empty driver queue. -/
theorem get_after_shutdown_blocks {n : Nat} (h : 0 < n) :
    (get_driver (quit_all_drivers (poolInit n))).fst = GetOutcome.blockedOnQueue := by
  simp only [poolInit, quit_all_drivers, get_driver]
  have hn : n ≠ 0 := Nat.pos_iff_ne_zero.mp h
  simp [hn]

/-- Witness for the amended C7 at capacity 3. -/
theorem get_after_shutdown_blocks_witness :
    (get_driver (quit_all_drivers (poolInit 3))).fst = GetOutcome.blockedOnQueue :=
  get_after_shutdown_blocks (by decide)

/-- Counterexample to claim C8: a concrete execution in which an acquire
issued after the Cancellation Flag is set succeeds and returns a handle.
Capacity 1; a task checks driver 0 out; the interrupt handler runs (flag
set, queue already empty so nothing is quit); the task releases driver 0;
a later `get_driver` then returns driver 0 even though the flag is set. -/
theorem get_after_cancel_succeeds :
    (release_driver (signal_handler (get_driver (poolInit 1)).snd) 0).stopFlag = true ∧
      (get_driver (release_driver (signal_handler (get_driver (poolInit 1)).snd) 0)).fst =
        GetOutcome.got 0 := by
  constructor <;> decide

/-- Amended claim C8: `get_driver` never consults the Cancellation Flag:
its outcome is identical whatever the flag's value, so an acquire issued
after cancellation succeeds whenever the semaphore count is positive and a
driver is queued, and otherwise blocks; it never fails with `Cancelled`
(no such failure exists in the code). -/
theorem get_driver_ignores_flag (s : PoolSt) (b : Bool) :
    (get_driver { s with stopFlag := b }).fst = (get_driver s).fst := by
  unfold get_driver
  cases s.queue <;> by_cases h : s.sem = 0 <;> simp [h]

/-! ## Frontier Driver (scrape.py lines 316-344, scrape2.py lines 497-518)

`CaliforniaScraper.start_scraping` runs waves: `urls_to_scrape` starts as
`self.base_urls` while `self.visited_links` starts EMPTY; each completed
task's expanded links are filtered against `visited_links`, the survivors
are added to `visited_links` and to the next wave.  `fetch u` abstracts the
set of expanded links `scrape_url` extracts at `u` (a Python set, hence
duplicate-free, modelled by `dedup`). -/

/-- One wave of the result-collection loop (scrape.py lines 327-332): fold
over the completed futures of the wave; for each, keep the links not yet
visited, mark them visited and append them to the next wave.  `v` is
`visited_links`, `next` is the accumulating next `urls_to_scrape`. -/
def waveStep {α : Type} [DecidableEq α] (fetch : α → List α) :
    List α → List α → List α → List α × List α
  | v, next, [] => (v, next)
  | v, next, u :: rest =>
      let new := ((fetch u).dedup).filter (fun x => decide (x ∉ v))
      waveStep fetch (v ++ new) (next ++ new) rest

/-- The wave loop of `start_scraping` (scrape.py lines 323-332), returning
the log of every target submitted to the executor, in submission order.
`fuel` bounds the number of waves (the code loops until the frontier is
empty). -/
def crawlWaves {α : Type} [DecidableEq α] (fetch : α → List α) :
    Nat → List α → List α → List α
  | 0, _, _ => []
  | _ + 1, _, [] => []
  | fuel + 1, v, wave =>
      let p := waveStep fetch v [] wave
      wave ++ crawlWaves fetch fuel p.1 p.2

/-- `CaliforniaScraper.start_scraping` frontier phase (scrape.py lines
316-332): the visited set starts empty (the seeds `base_urls` are NOT
pre-added) and the first wave is the seed list. -/
def start_scraping_sched {α : Type} [DecidableEq α] (fetch : α → List α)
    (fuel : Nat) (seeds : List α) : List α :=
  crawlWaves fetch fuel [] seeds

theorem waveStep_count {α : Type} [DecidableEq α] (fetch : α → List α) (t : α) :
    ∀ (wave v next : List α),
      ((waveStep fetch v next wave).2).count t
          + (if t ∈ (waveStep fetch v next wave).1 then 0 else 1)
        ≤ next.count t + (if t ∈ v then 0 else 1) := by
  intro wave
  induction wave with
  | nil => intro v next; simp [waveStep]
  | cons u rest ih =>
      intro v next
      simp only [waveStep]
      refine (ih (v ++ ((fetch u).dedup).filter (fun x => decide (x ∉ v)))
        (next ++ ((fetch u).dedup).filter (fun x => decide (x ∉ v)))).trans ?_
      have hnodup : (((fetch u).dedup).filter (fun x => decide (x ∉ v))).Nodup :=
        (List.nodup_dedup (fetch u)).filter _
      by_cases hv : t ∈ v
      · have hnot : t ∉ ((fetch u).dedup).filter (fun x => decide (x ∉ v)) := by
          intro hmem
          have := (List.mem_filter.mp hmem).2
          exact (of_decide_eq_true this) hv
        have hmem : t ∈ v ++ ((fetch u).dedup).filter (fun x => decide (x ∉ v)) :=
          List.mem_append.mpr (Or.inl hv)
        rw [List.count_append, List.count_eq_zero.mpr hnot, if_pos hmem, if_pos hv]
      · by_cases hnew : t ∈ ((fetch u).dedup).filter (fun x => decide (x ∉ v))
        · have hone : (((fetch u).dedup).filter (fun x => decide (x ∉ v))).count t ≤ 1 :=
            List.nodup_iff_count_le_one.mp hnodup t
          have hmem : t ∈ v ++ ((fetch u).dedup).filter (fun x => decide (x ∉ v)) :=
            List.mem_append.mpr (Or.inr hnew)
          rw [List.count_append, if_pos hmem, if_neg hv]
          omega
        · have hzero : (((fetch u).dedup).filter (fun x => decide (x ∉ v))).count t = 0 :=
            List.count_eq_zero.mpr hnew
          have hmem : t ∉ v ++ ((fetch u).dedup).filter (fun x => decide (x ∉ v)) := by
            intro hmem
            rcases List.mem_append.mp hmem with h | h
            · exact hv h
            · exact hnew h
          rw [List.count_append, hzero, if_neg hmem, if_neg hv]

theorem crawlWaves_count {α : Type} [DecidableEq α] (fetch : α → List α) (t : α) :
    ∀ (fuel : Nat) (v wave : List α),
      (crawlWaves fetch fuel v wave).count t
        ≤ wave.count t + (if t ∈ v then 0 else 1) := by
  intro fuel
  induction fuel with
  | zero => intro v wave; simp [crawlWaves]
  | succ f ih =>
      intro v wave
      cases wave with
      | nil => simp [crawlWaves]
      | cons u rest =>
          simp only [crawlWaves, List.count_append]
          have h1 := ih (waveStep fetch v [] (u :: rest)).1
            (waveStep fetch v [] (u :: rest)).2
          have h2 := waveStep_count fetch t (u :: rest) v []
          simp only [List.count_nil] at h2
          omega

/-- Counterexample to claim C2: seeds are not pre-added to the Visited Set,
so a crawl whose single seed links back to itself schedules that seed
twice.  With `fetch 0 = [0]` and seed list `[0]`, the submission log is
`[0, 0]`. -/
theorem seed_scheduled_twice :
    start_scraping_sched (fun _ => [(0 : Nat)]) 3 [0] = [0, 0] ∧
      ¬ (start_scraping_sched (fun _ => [(0 : Nat)]) 3 [0]).count 0 ≤ 1 := by
  constructor <;> decide

/-- Amended claim C2: the Visited Set starts empty (seeds are not
pre-added); a discovered link is scheduled only if absent from the Visited
Set and is added to it at the moment of scheduling.  Hence every target is
scheduled at most once more than its multiplicity in the seed list; in
particular a target that is not a seed is scheduled at most once. -/
theorem scheduled_at_most_once {α : Type} [DecidableEq α]
    (fetch : α → List α) (fuel : Nat) (seeds : List α) (t : α)
    (h : t ∉ seeds) :
    (start_scraping_sched fetch fuel seeds).count t ≤ 1 := by
  have hc := crawlWaves_count fetch t fuel [] seeds
  have hz : seeds.count t = 0 := List.count_eq_zero.mpr h
  simpa [start_scraping_sched, hz] using hc

/-- Witness for the amended C2: target 1 is not a seed of the self-loop
crawl, and is indeed scheduled at most once. -/
theorem scheduled_at_most_once_witness :
    (start_scraping_sched (fun _ => [(0 : Nat)]) 3 [0]).count 1 ≤ 1 :=
  scheduled_at_most_once (fun _ => [(0 : Nat)]) 3 [0] 1 (by decide)

/-! ## Cancellation and the wave loop (scrape.py lines 160-164, 323-344,
408-410)

`SeleniumScraper.signal_handler` (lines 160-164) sets `stop_event` AND
calls `self.executor.shutdown(wait=False)`.  The `while urls_to_scrape:`
loop of `start_scraping` never reads `stop_event`; but once the executor
is shut down, the first `executor.submit` of the next wave's dict
comprehension raises `RuntimeError` before any future is created, so the
whole comprehension — and `start_scraping` with it — aborts and the
pending wave is never submitted.  Tasks submitted before the transition
still run; they read the flag at the top of `scrape_url` (lines 409-410)
and return empty sets when it is set. -/

/-- The expanded-link part of `CaliforniaScraper.scrape_url` (scrape.py
lines 408-420): if `stop_event` is set the task returns no links at all;
otherwise it fetches and extracts. -/
def scrape_url_links {α : Type} (stopFlag : Bool) (fetch : α → List α)
    (u : α) : List α :=
  if stopFlag then [] else fetch u

/-- The scraper's cancellation-relevant control state: `stop_event` and
whether `self.executor` has been shut down. -/
structure ScraperCtl where
  stopFlag : Bool
  executorDown : Bool
  deriving DecidableEq, Repr

/-- Control state at `SeleniumScraper.__init__` (scrape.py lines 146-158):
flag clear, executor live. -/
def ctlInit : ScraperCtl := ⟨false, false⟩

/-- `SeleniumScraper.signal_handler` (scrape.py lines 160-164) as it acts
on the control state: it sets `stop_event` and shuts the executor down in
the same handler, so the flag transition and the executor shutdown are
never observed apart by the wave loop. -/
def signal_handler_ctl (_ : ScraperCtl) : ScraperCtl := ⟨true, true⟩

/-- The submission comprehension of one wave,
`futures = {executor.submit(scrape_url, url): url for url in urls}`
(scrape.py line 324), under control state `ctl`: targets are submitted in
order; it never reads `ctl.stopFlag`, but when the executor is shut down
the FIRST `submit` raises `RuntimeError`, aborting the comprehension with
no task submitted.  Returns the submitted targets and the exception that
escaped, if any. -/
def submit_wave {α : Type} (ctl : ScraperCtl) : List α → List α × Option String
  | [] => ([], none)
  | u :: rest =>
      if ctl.executorDown then ([], some "RuntimeError")
      else
        let r := submit_wave ctl rest
        (u :: r.1, r.2)

/-- Counterexample to claim C9: at the concrete post-cancellation state
produced by `signal_handler` (flag set — and, inseparably, executor shut
down), the pending wave `[0]` yields no submission, but NOT through the
claimed mechanism: no flag is checked at the top of the wave or before
scheduling; instead the first `executor.submit` raises `RuntimeError`,
which propagates out of `start_scraping`, rather than the wave loop
skipping the wave and exiting normally as a flag check would. -/
theorem wave_submit_raises_after_cancel :
    (signal_handler_ctl ctlInit).stopFlag = true ∧
      submit_wave (signal_handler_ctl ctlInit) [(0 : Nat)] =
        ([], some "RuntimeError") :=
  ⟨rfl, rfl⟩

/-- Amended claim C9: once the Cancellation Flag is set, no new task is
ever submitted — but not because the wave loop checks the flag (it never
reads it, as the flag-independence conjunct states): `signal_handler` also
shuts the executor down, so the first `executor.submit` of the pending
wave raises `RuntimeError` before any future is created, aborting
`start_scraping` with that exception instead of exiting the loop normally;
tasks submitted before the transition run to completion or fail naturally,
and any of them that starts after it observes the flag at the top of
`scrape_url` and returns empty results. -/
theorem no_submission_after_cancel {α : Type} (fetch : α → List α)
    (wave : List α) (hw : wave ≠ []) :
    (submit_wave (signal_handler_ctl ctlInit) wave).1 = [] ∧
      (submit_wave (signal_handler_ctl ctlInit) wave).2 = some "RuntimeError" ∧
      (∀ (b d : Bool) (w : List α),
        submit_wave (⟨b, d⟩ : ScraperCtl) w = submit_wave (⟨!b, d⟩ : ScraperCtl) w) ∧
      (∀ u : α, scrape_url_links true fetch u = []) := by
  refine ⟨?_, ?_, ?_, ?_⟩
  · cases wave with
    | nil => exact absurd rfl hw
    | cons u rest => rfl
  · cases wave with
    | nil => exact absurd rfl hw
    | cons u rest => rfl
  · intro b d w
    induction w with
    | nil => rfl
    | cons u rest ih => cases d <;> simp [submit_wave, ih]
  · intro u
    rfl

/-- Witness for the amended C9 at the pending wave `[0, 1]`. -/
theorem no_submission_after_cancel_witness :
    (submit_wave (signal_handler_ctl ctlInit) [(0 : Nat), 1]).1 = [] ∧
      (submit_wave (signal_handler_ctl ctlInit) [(0 : Nat), 1]).2 =
        some "RuntimeError" ∧
      (∀ (b d : Bool) (w : List Nat),
        submit_wave (⟨b, d⟩ : ScraperCtl) w = submit_wave (⟨!b, d⟩ : ScraperCtl) w) ∧
      (∀ u : Nat, scrape_url_links true (fun _ => [(7 : Nat)]) u = []) :=
  no_submission_after_cancel (fun _ => [(7 : Nat)]) [0, 1] (by decide)

/-! ## Task failure propagation (scrape.py lines 323-332, 408-420)

`scrape_url` has no `except` clause: an exception from `safe_get` (after
its retries are exhausted) propagates into the future, and the collection
loop of `start_scraping` calls `future.result()` with no `try` around it,
re-raising the exception and aborting the whole crawl. -/

/-- Wave collection with fallible tasks (scrape.py lines 327-332): the
first `future.result()` that re-raises aborts the loop with that
exception. -/
def waveStepExc {α : Type} [DecidableEq α] (fetchE : α → Except String (List α)) :
    List α → List α → List α → Except String (List α × List α)
  | v, next, [] => Except.ok (v, next)
  | v, next, u :: rest =>
      match fetchE u with
      | Except.error e => Except.error e
      | Except.ok links =>
          let new := links.dedup.filter (fun x => decide (x ∉ v))
          waveStepExc fetchE (v ++ new) (next ++ new) rest

/-- The wave loop of `start_scraping` with fallible tasks (scrape.py lines
323-332): a task exception aborts the run; otherwise the run ends with the
visited set. -/
def crawlWavesExc {α : Type} [DecidableEq α] (fetchE : α → Except String (List α)) :
    Nat → List α → List α → Except String (List α)
  | 0, v, _ => Except.ok v
  | _ + 1, v, [] => Except.ok v
  | fuel + 1, v, wave =>
      match waveStepExc fetchE v [] wave with
      | Except.error e => Except.error e
      | Except.ok p => crawlWavesExc fetchE fuel p.1 p.2

/-- Counterexample to claim C5: a single task whose fetch fails (after its
retries are exhausted) aborts the whole crawl: the run ends in the
re-raised exception instead of a summary. -/
theorem task_failure_aborts_crawl :
    crawlWavesExc (fun _ => (Except.error "nav failed" : Except String (List Nat)))
        3 [] [0] = Except.error "nav failed" := by
  rfl

/-- Amended claim C5: a failure escaping a frontier task is NOT contained:
`future.result()` re-raises it and the crawl aborts with that exception
(no failure count is recorded).  Formally, whenever the first target of
the pending wave fails, the whole run returns that error. -/
theorem task_failure_propagates {α : Type} [DecidableEq α]
    (fetchE : α → Except String (List α)) (u : α) (e : String)
    (rest : List α) (fuel : Nat) (v : List α)
    (hu : fetchE u = Except.error e) (hf : 1 ≤ fuel) :
    crawlWavesExc fetchE fuel v (u :: rest) = Except.error e := by
  cases fuel with
  | zero => omega
  | succ f => simp [crawlWavesExc, waveStepExc, hu]

/-- Witness for the amended C5 at a concrete failing wave. -/
theorem task_failure_propagates_witness :
    crawlWavesExc (fun _ => (Except.error "boom" : Except String (List Nat)))
        2 [5] [0, 1] = Except.error "boom" :=
  task_failure_propagates _ 0 "boom" [1] 2 [5] rfl (by decide)

/-! ## Retrying Task Runner (scrape.py lines 60-85 and 422-453)

`CustomWebDriver.safe_get` and
`CaliforniaScraper.process_link_with_timeout_and_retry` both loop over
attempts, catching EVERY exception alike (`except Exception`): the code
never inspects the exception to distinguish a retryable from a fatal
failure.  We therefore let each attempt's failure carry a kind, which the
code necessarily ignores. -/

/-- The spec's failure taxonomy, carried by the exception an attempt
raises; the retry loops in the source catch `Exception` and never look at
it. -/
inductive FailKind where
  | retryable
  | fatal
  deriving DecidableEq, Repr

/-- Result of one attempt: the navigation / link-processing body either
returns or raises an exception of some kind. -/
inductive AttemptRes where
  | ok
  | err (k : FailKind)
  deriving DecidableEq, Repr

/-- `CustomWebDriver.safe_get` (scrape.py lines 60-85), parameterised by
the outcome of each attempt (`attempt i` is the result of the `self.get`
call of 0-indexed attempt `i`).  Returns the number of attempts made, the
list of backoff sleeps performed between consecutive attempts, and the
final outcome (`Except.error k` when the last exception is re-raised).
The recursion mirrors `while current_attempt <= attempts`, where
`remaining` counts the attempts still allowed; `remaining = 0` means the
loop guard fails and the function falls through, returning normally. -/
def safeGetAux (attempt : Nat → AttemptRes) (backoff : Nat) :
    Nat → Nat → Nat × List Nat × Except FailKind Unit
  | 0, _ => (0, [], Except.ok ())
  | remaining + 1, i =>
      match attempt i with
      | AttemptRes.ok => (1, [], Except.ok ())
      | AttemptRes.err k =>
          if remaining = 0 then (1, [], Except.error k)
          else
            let r := safeGetAux attempt backoff remaining (i + 1)
            (r.1 + 1, backoff :: r.2.1, r.2.2)

/-- `safe_get(url, attempts, backoff)` (scrape.py lines 60-85). -/
def safe_get (attempt : Nat → AttemptRes) (attempts backoff : Nat) :
    Nat × List Nat × Except FailKind Unit :=
  safeGetAux attempt backoff attempts 0

/-- `CaliforniaScraper.process_link_with_timeout_and_retry` retry loop
(scrape.py lines 422-453), parameterised the same way: `while retry_count
< max_retries`, every exception (including the timeout of
`future.result(timeout=timeout)`) increments `retry_count`, re-raises when
it reaches `max_retries`, and otherwise sleeps the constant 5 seconds.
The loop body's structure is identical to `safe_get`, so it shares the
auxiliary recursion with backoff constant 5. -/
def process_link_retry (attempt : Nat → AttemptRes) (max_retries : Nat) :
    Nat × List Nat × Except FailKind Unit :=
  safeGetAux attempt 5 max_retries 0

/-- Counterexample to claim C4: a task whose attempts all raise a
fatal-kind failure is NOT attempted exactly once: both retry loops ignore
the exception's kind and retry it like any other failure, making all 3 of
3 allowed attempts. -/
theorem fatal_failure_retried :
    safe_get (fun _ => AttemptRes.err FailKind.fatal) 3 5 =
        (3, [5, 5], Except.error FailKind.fatal) ∧
      process_link_retry (fun _ => AttemptRes.err FailKind.fatal) 3 =
        (3, [5, 5], Except.error FailKind.fatal) ∧
      (3 : Nat) ≠ 1 := by
  refine ⟨rfl, rfl, by decide⟩

theorem safeGetAux_succ (attempt : Nat → AttemptRes) (backoff n i : Nat) :
    safeGetAux attempt backoff (n + 1) i =
      match attempt i with
      | AttemptRes.ok => (1, [], Except.ok ())
      | AttemptRes.err k =>
          if n = 0 then (1, [], Except.error k)
          else
            let r := safeGetAux attempt backoff n (i + 1)
            (r.1 + 1, backoff :: r.2.1, r.2.2) := rfl

theorem safeGetAux_all_fail (attempt : Nat → AttemptRes) (backoff : Nat) :
    ∀ (remaining i : Nat), 1 ≤ remaining →
      (∀ j, j < i + remaining → attempt j ≠ AttemptRes.ok) →
      safeGetAux attempt backoff remaining i =
        (remaining, List.replicate (remaining - 1) backoff,
          Except.error (match attempt (i + remaining - 1) with
            | AttemptRes.ok => FailKind.retryable
            | AttemptRes.err k => k)) := by
  intro remaining
  induction remaining with
  | zero => intro i h; omega
  | succ rem ih =>
      intro i _ hfail
      have hi : attempt i ≠ AttemptRes.ok := hfail i (by omega)
      cases hcur : attempt i with
      | ok => exact absurd hcur hi
      | err k =>
          cases rem with
          | zero =>
              rw [safeGetAux_succ, hcur]
              have hidx : i + (0 + 1) - 1 = i := by omega
              rw [hidx, hcur]
              rfl
          | succ rem2 =>
              have hrec := ih (i + 1) (by omega) (fun j hj => hfail j (by omega))
              have harg : i + 1 + (rem2 + 1) - 1 = i + (rem2 + 1 + 1) - 1 := by omega
              rw [harg] at hrec
              rw [safeGetAux_succ, hcur]
              dsimp only
              rw [if_neg (Nat.succ_ne_zero rem2), hrec]
              simp [List.replicate_succ]

/-- Amended claim C4: a task all of whose attempts fail — with failures of
ANY kinds, since the code catches every exception uniformly and has no
fatal short-circuit — is attempted exactly `max_attempts` times, with the
constant (non-exponential) backoff slept between consecutive attempts
(`max_attempts - 1` sleeps), and then the last exception is re-raised as
the exhausted outcome.  This holds for both `safe_get` and
`process_link_with_timeout_and_retry` (whose constant backoff is 5). -/
theorem retry_bound (attempt : Nat → AttemptRes) (attempts backoff : Nat)
    (h1 : 1 ≤ attempts) (hfail : ∀ j, j < attempts → attempt j ≠ AttemptRes.ok) :
    (safe_get attempt attempts backoff).1 = attempts ∧
      (safe_get attempt attempts backoff).2.1 =
        List.replicate (attempts - 1) backoff ∧
      (∃ k, (safe_get attempt attempts backoff).2.2 = Except.error k) ∧
      (process_link_retry attempt attempts).1 = attempts ∧
      (process_link_retry attempt attempts).2.1 =
        List.replicate (attempts - 1) 5 := by
  have hs := safeGetAux_all_fail attempt backoff attempts 0 h1
    (fun j hj => hfail j (by omega))
  have hp := safeGetAux_all_fail attempt 5 attempts 0 h1
    (fun j hj => hfail j (by omega))
  unfold safe_get process_link_retry
  rw [hs, hp]
  exact ⟨rfl, rfl, ⟨_, rfl⟩, rfl, rfl⟩

/-- Witness for the amended C4: three attempts that fail retryable,
retryable, fatal make exactly 3 attempts with 2 constant backoff sleeps. -/
theorem retry_bound_witness :
    (safe_get (fun j => if j < 2 then AttemptRes.err FailKind.retryable
        else AttemptRes.err FailKind.fatal) 3 7).1 = 3 ∧
      (safe_get (fun j => if j < 2 then AttemptRes.err FailKind.retryable
        else AttemptRes.err FailKind.fatal) 3 7).2.1 = List.replicate 2 7 ∧
      (∃ k, (safe_get (fun j => if j < 2 then AttemptRes.err FailKind.retryable
        else AttemptRes.err FailKind.fatal) 3 7).2.2 = Except.error k) ∧
      (process_link_retry (fun j => if j < 2 then AttemptRes.err FailKind.retryable
        else AttemptRes.err FailKind.fatal) 3).1 = 3 ∧
      (process_link_retry (fun j => if j < 2 then AttemptRes.err FailKind.retryable
        else AttemptRes.err FailKind.fatal) 3).2.1 = List.replicate 2 5 :=
  retry_bound _ 3 7 (by decide)
    (fun j _ => by
      by_cases hj : j < 2 <;> simp [hj])

/-! ## Acquire/release accounting of the Leaf Processor
(scrape.py lines 369-406 and 455-536)

`CaliforniaScraper.scrape_manylawsections(url, driver=None)` acquires a
driver only when none is passed; on ANY exception it retries by calling
ITSELF with the same driver, and the `finally:` clause of EVERY recursion
frame calls `release_driver(driver)` on that same driver.
`CaliforniaScraper.process_link(link, url, driver=None)` acquires a driver
when none is passed and its release is commented out (lines 534-535): it
never releases. -/

/-- Per-frame body outcome of `scrape_manylawsections`: either the frame's
try-block completes, or it raises and the frame retries recursively. -/
inductive FrameRes where
  | ok
  | exc
  deriving DecidableEq, Repr

/-- Acquire/release counting of `scrape_manylawsections url driver?`
(scrape.py lines 369-406): `frames` lists the body outcome of each
successive recursion frame (an empty tail behaves like a completing body).
Returns `(calls to get_driver, calls to release_driver)` performed by the
whole call tree.  A frame acquires only when no driver was passed
(`driverProvided = false`, only possible at the outermost call);
the recursive retry passes the driver, and every frame's `finally`
releases it. -/
def manylaw_acq_rel (driverProvided : Bool) : List FrameRes → Nat × Nat
  | [] => (if driverProvided then 0 else 1, 1)
  | FrameRes.ok :: _ => (if driverProvided then 0 else 1, 1)
  | FrameRes.exc :: rest =>
      let r := manylaw_acq_rel true rest
      ((if driverProvided then 0 else 1) + r.1, r.2 + 1)

/-- Acquire/release counting of `process_link link url driver?`
(scrape.py lines 455-536): acquires when no driver is passed, and never
releases (the `finally: release_driver` is commented out). -/
def process_link_acq_rel (driverProvided : Bool) : Nat × Nat :=
  (if driverProvided then 0 else 1, 0)

/-- Claim C3 is a code bug, witnessed by evaluation: a
`scrape_manylawsections` call that acquires its own driver, fails once and
then succeeds on the retry performs 1 acquire but 2 releases of the same
driver (one per recursion frame's `finally`), and a `process_link` call
that acquires its own driver performs 1 acquire and 0 releases.  In both
cases release is not called exactly once per successful acquire. -/
theorem release_not_balanced :
    manylaw_acq_rel false [FrameRes.exc, FrameRes.ok] = (1, 2) ∧
      process_link_acq_rel false = (1, 0) ∧
      (2 : Nat) ≠ 1 ∧ (0 : Nat) ≠ 1 := by
  refine ⟨rfl, rfl, by decide, by decide⟩

/-! ## Persistence Guard (scrape.py lines 166-230, db.py lines 28-47)

`SeleniumScraper.insert_law_entry` connects, runs the existence check
`SELECT url, text FROM law_entries WHERE url = ? AND text = ? LIMIT 1` on
the record's URL and extracted law text, skips the insert on a hit
(logging a duplicate message) and hands an INSERT to `db.execute_sql` on a
miss.  `db.execute_sql` (db.py lines 28-47) swallows every
`sqlite3.Error`, printing it and returning `None`, so a failed INSERT adds
no row yet raises nothing to `insert_law_entry`. -/

/-- A row of `law_entries`, reduced to its natural key `(url, text)`. -/
structure LawRow where
  url : String
  text : String
  deriving DecidableEq, Repr

/-- The existence check of `insert_law_entry` (scrape.py lines 180-181):
a row with the same URL and the same law text is already present. -/
def entryExists (db : List LawRow) (url text : String) : Bool :=
  db.any (fun r => decide (r.url = url) && decide (r.text = text))

/-- Outcome of one `insert_law_entry` call.  `insertFailed` is the path
where the existence check missed but the INSERT statement itself failed
inside `execute_sql`, which swallows the `sqlite3.Error`: nothing is
added, nothing is raised. -/
inductive InsertOutcome where
  | inserted
  | duplicateSkip
  | insertFailed
  | noConnection
  deriving DecidableEq, Repr

/-- `SeleniumScraper.insert_law_entry` (scrape.py lines 166-230), existence
check and insert, with the error behaviour of `db.execute_sql` (db.py
lines 28-47): if the connection failed (`conn is None`) nothing happens;
on an existence-check hit the insert is skipped (the duplicate is only
logged, no error is raised to the caller); on a miss the INSERT is handed
to `execute_sql` — `insertOk` records whether that statement succeeded,
and only then is the row actually added; `execute_sql` swallows a failed
statement's error. -/
def insert_law_entry (connOk insertOk : Bool) (db : List LawRow)
    (url text : String) : InsertOutcome × List LawRow :=
  if connOk = false then (InsertOutcome.noConnection, db)
  else if entryExists db url text then (InsertOutcome.duplicateSkip, db)
  else if insertOk then (InsertOutcome.inserted, db ++ [⟨url, text⟩])
  else (InsertOutcome.insertFailed, db)

/-- Counterexample to claim C6: the claimed biconditional "a record is
inserted if and only if no record with the same natural key already exists
at check time" fails on the swallowed-error path of `db.execute_sql`: on
an empty store the existence check misses, yet when the INSERT statement
fails nothing is inserted — the store stays empty. -/
theorem miss_with_failed_insert_not_inserted :
    entryExists [] "u" "t" = false ∧
      insert_law_entry true false [] "u" "t" = (InsertOutcome.insertFailed, []) ∧
      ((insert_law_entry true false [] "u" "t").2).length = 0 :=
  ⟨rfl, rfl, rfl⟩

/-- Amended claim C6: with a live connection, `insert_law_entry` first
performs the existence check on the record's natural key (URL plus law
text); on a hit no insert is attempted and the outcome is the
duplicate-skip (not an error); on a miss the INSERT is attempted — and
because `execute_sql` swallows sqlite errors, the record is actually
inserted if and only if the check missed AND the INSERT statement itself
succeeded (a failed INSERT leaves the store unchanged and raises
nothing). -/
theorem insert_checked_then_attempted (insertOk : Bool) (db : List LawRow)
    (url text : String) :
    (entryExists db url text = true →
        insert_law_entry true insertOk db url text =
          (InsertOutcome.duplicateSkip, db)) ∧
      ((insert_law_entry true insertOk db url text).1 = InsertOutcome.inserted ↔
        entryExists db url text = false ∧ insertOk = true) ∧
      (entryExists db url text = false →
        insert_law_entry true insertOk db url text =
          (if insertOk then (InsertOutcome.inserted, db ++ [⟨url, text⟩])
           else (InsertOutcome.insertFailed, db))) := by
  refine ⟨?_, ?_, ?_⟩
  · intro h
    simp [insert_law_entry, h]
  · by_cases hex : entryExists db url text
    · simp [insert_law_entry, hex]
    · cases insertOk <;> simp [insert_law_entry, hex]
  · intro h
    cases insertOk <;> simp [insert_law_entry, h]

/-- Witness for the amended C6: on a store holding `("u", "t")` with a
succeeding INSERT, inserting the same natural key is a duplicate-skip that
leaves the store unchanged. -/
theorem insert_checked_then_attempted_witness :
    (entryExists [⟨"u", "t"⟩] "u" "t" = true →
        insert_law_entry true true [⟨"u", "t"⟩] "u" "t" =
          (InsertOutcome.duplicateSkip, [⟨"u", "t"⟩])) ∧
      ((insert_law_entry true true [⟨"u", "t"⟩] "u" "t").1 = InsertOutcome.inserted ↔
        entryExists [⟨"u", "t"⟩] "u" "t" = false ∧ true = true) ∧
      (entryExists [⟨"u", "t"⟩] "u" "t" = false →
        insert_law_entry true true [⟨"u", "t"⟩] "u" "t" =
          (if true then (InsertOutcome.inserted, [⟨"u", "t"⟩] ++ [⟨"u", "t"⟩])
           else (InsertOutcome.insertFailed, [⟨"u", "t"⟩]))) :=
  insert_checked_then_attempted true [⟨"u", "t"⟩] "u" "t"

/-! ## Entries-added counter (scrape.py lines 154-156, 202-205;
scrape2.py lines 201-204)

After the insert statement is handed to `db.execute_sql`, the counter
`n_entries_added` is incremented under `n_entries_lock` — unconditionally,
because `execute_sql` swallows every `sqlite3.Error` (db.py lines 44-47)
instead of raising it.  `insertOk` states whether the INSERT statement
itself succeeded inside `execute_sql`. -/

/-- `insert_law_entry` with the counter update (scrape.py lines 166-230):
returns the store and the new value of `n_entries_added`.  When the
existence check misses, `execute_sql` is called with the INSERT and the
counter is incremented whether or not that INSERT succeeded, because
`execute_sql` catches the error itself. -/
def insert_law_entry_counted (connOk insertOk : Bool) (db : List LawRow)
    (n : Nat) (url text : String) : List LawRow × Nat :=
  if connOk = false then (db, n)
  else if entryExists db url text then (db, n)
  else if insertOk then (db ++ [⟨url, text⟩], n + 1)
  else (db, n + 1)

/-- Counterexample to claim C10: when the INSERT itself fails inside
`execute_sql` (which swallows the sqlite error), the counter is still
incremented: starting from an empty store and counter 0, the call leaves
the store empty but sets the counter to 1, so the counter does not equal
the number of records inserted and IS incremented on a database error. -/
theorem counter_incremented_on_db_error :
    insert_law_entry_counted true false [] 0 "u" "t" = ([], 1) ∧
      ((insert_law_entry_counted true false [] 0 "u" "t").1).length = 0 ∧
      (insert_law_entry_counted true false [] 0 "u" "t").2 = 1 := by
  refine ⟨rfl, rfl, rfl⟩

/-- Amended claim C10: `n_entries_added` is incremented (under the lock)
exactly once per call in which the existence check misses with a live
connection — that is, once per ATTEMPTED insert, regardless of whether the
INSERT statement succeeded, since `execute_sql` swallows its errors. It is
never incremented on a duplicate-skip or a failed connection, and it
equals the number of records actually added exactly when the INSERT
succeeds. -/
theorem counter_counts_attempted_inserts (connOk insertOk : Bool)
    (db : List LawRow) (n : Nat) (url text : String) :
    (insert_law_entry_counted connOk insertOk db n url text).2 =
        n + (if connOk = true ∧ entryExists db url text = false then 1 else 0) ∧
      (insertOk = true →
        ((insert_law_entry_counted connOk insertOk db n url text).1).length =
          db.length +
            ((insert_law_entry_counted connOk insertOk db n url text).2 - n)) := by
  constructor
  · cases connOk with
    | false => simp [insert_law_entry_counted]
    | true =>
        by_cases hex : entryExists db url text
        · simp [insert_law_entry_counted, hex]
        · cases insertOk <;> simp [insert_law_entry_counted, hex]
  · intro hok
    subst hok
    cases connOk with
    | false => simp [insert_law_entry_counted]
    | true =>
        by_cases hex : entryExists db url text
        · simp [insert_law_entry_counted, hex]
        · simp [insert_law_entry_counted, hex]

/-- Witness for the amended C10: a successful insert into an empty store
increments the counter by exactly the one record added. -/
theorem counter_counts_attempted_inserts_witness :
    (insert_law_entry_counted true true [] 4 "u" "t").2 =
        4 + (if true = true ∧ entryExists [] "u" "t" = false then 1 else 0) ∧
      (true = true →
        ((insert_law_entry_counted true true [] 4 "u" "t").1).length =
          ([] : List LawRow).length +
            ((insert_law_entry_counted true true [] 4 "u" "t").2 - 4)) :=
  counter_counts_attempted_inserts true true [] 4 "u" "t"

end Hyperplex
